import Mathlib

/-!
Verification development for the Clue.ai product-review application
(src/app.py). The non-UI logic is shallowly embedded: the access gate
(trial counter / premium flag), the sentiment aggregator, the review
fetchers, and the subscription-code verification. External effects
(HTTP responses, the classifier model) become explicit inputs.
-/

namespace ClueAI

/-- Per-user account state, as stored in the `users` table and mirrored
in session state: `searches_used` counter and `is_premium` flag
(src/app.py lines 69-77). -/
structure UserStats where
  searches_used : Nat
  is_premium : Bool
deriving DecidableEq, Repr

/-- The gate condition of the search handler, src/app.py line 123:
`stats["is_premium"] or stats["searches_used"] < 2`. -/
def allowSearch (stats : UserStats) : Bool :=
  stats.is_premium || decide (stats.searches_used < 2)

/-- One search attempt, src/app.py lines 121-149: when the gate condition
holds the search proceeds and `searches_used` is incremented by 1
(`increment_search`, line 79-80, mirrored locally at line 144); otherwise
the attempt is denied and the state is unchanged. Returns (permitted,
new state). -/
def searchStep (stats : UserStats) : Bool × UserStats :=
  if allowSearch stats then
    (true, { stats with searches_used := stats.searches_used + 1 })
  else
    (false, stats)

/-- Per-snippet classifier output: a label string (the model emits
POSITIVE or NEGATIVE) and a confidence score. Scores are modelled as
rationals. -/
structure SentimentResult where
  label : String
  score : ℚ
deriving DecidableEq, Repr

/-- The dictionary returned by `get_sentiment_summary`,
src/app.py lines 47-54. -/
structure ReviewSummary where
  overall : String
  avg_score : ℚ
  details : List SentimentResult
deriving DecidableEq, Repr

/-- The score list of src/app.py line 51:
`[1 if s["label"] == "POSITIVE" else 0 for s in sentiments]`. -/
def sentimentScores (sentiments : List SentimentResult) : List ℚ :=
  sentiments.map (fun s => if s.label = "POSITIVE" then (1 : ℚ) else 0)

/-- The overall-label selection of src/app.py line 53:
`"POSITIVE" if avg_score > 0.6 else "NEGATIVE" if avg_score < 0.4 else
"NEUTRAL"`. -/
def overallLabel (avg_score : ℚ) : String :=
  if avg_score > 0.6 then "POSITIVE"
  else if avg_score < 0.4 then "NEGATIVE"
  else "NEUTRAL"

/-- The function get_sentiment_summary (src/app.py lines 47-54), with the
`sentiment_pipeline` model injected as the `classifier` argument.
Empty input short-circuits to NO_DATA; otherwise every review is
classified, each POSITIVE label scores 1 and any other label 0, the
average of the scores is taken, the overall label is chosen by the
0.6 / 0.4 thresholds, and `details` keeps the first 5 results. -/
def get_sentiment_summary (classifier : String → SentimentResult)
    (reviews : List String) : ReviewSummary :=
  if reviews.isEmpty then
    { overall := "NO_DATA", avg_score := 0, details := [] }
  else
    let sentiments := reviews.map classifier
    let scores := sentimentScores sentiments
    let avg_score := scores.sum / (scores.length : ℚ)
    { overall := overallLabel avg_score, avg_score := avg_score,
      details := sentiments.take 5 }

/-- The number of results carrying the POSITIVE label, used to state the
average-score claims. -/
def countPositive (sentiments : List SentimentResult) : Nat :=
  (sentiments.filter (fun s => s.label = "POSITIVE")).length

/-- One Reddit post as consumed by `scrape_reddit_reviews`: the fields
`post["data"]["title"]` and `post["data"]["selftext"]` (the latter may be
null, handled by `or ""` in the source). -/
structure RedditPost where
  title : String
  selftext : Option String
deriving DecidableEq, Repr

/-- The function scrape_reddit_reviews (src/app.py lines 29-41), with the HTTP
fetch-and-parse outcome injected: `Except.ok posts` stands for a
successfully fetched and parsed `resp["data"]["children"]`, and
`Except.error e` for any raised exception (network, timeout, malformed
body). On success, posts whose body text exceeds 20 characters are kept
and mapped to title, a space, and body; no warning is emitted. On
failure, the `except` branch emits the `st.error` warning and returns
the empty list. Returns (snippets, warnings). -/
def scrape_reddit_reviews (fetched : Except String (List RedditPost)) :
    List String × List String :=
  match fetched with
  | Except.ok posts =>
      (posts.filterMap (fun post =>
        if (post.selftext.getD "").length > 20 then
          some (post.title ++ " " ++ post.selftext.getD "")
        else none), [])
  | Except.error e => ([], ["Fetch failed: " ++ e])

/-- The function scrape_google_reviews (src/app.py lines 43-45): a deterministic
mock returning two synthetic snippets built from the product name. -/
def scrape_google_reviews (product : String) : List String :=
  ["Deep insight: " ++ product ++ " excels in usability (4.8/5 from Google).",
   "Trend: Recent updates boost " ++ product ++ " quality."]

/-- The review fetch of the search handler, src/app.py line 125:
`scrape_reddit_reviews(product) + scrape_google_reviews(product)`,
source-A (Reddit) results first. Warnings emitted by the Reddit call are
carried alongside. -/
def fetch_reviews (fetched : Except String (List RedditPost))
    (product : String) : List String × List String :=
  ((scrape_reddit_reviews fetched).1 ++ scrape_google_reviews product,
   (scrape_reddit_reviews fetched).2)

/-- One sale record from the Gumroad response: `sale.get("custom_fields", {})`
may be missing (the `Option`), and is otherwise a string-keyed dictionary,
modelled as an association list. -/
structure GumroadSale where
  custom_fields : Option (List (String × String))
deriving DecidableEq, Repr

/-- The JSON body of the Gumroad sales query: `resp.get("sales", [])`,
so the `sales` key may be missing. -/
structure GumroadResponse where
  sales : Option (List GumroadSale)
deriving DecidableEq, Repr

/-- The code extraction of src/app.py line 63:
`sale.get("custom_fields", {}).get("code", "")` — a missing
`custom_fields` dictionary or a missing `code` entry both default to the
empty string. -/
def saleCode (sale : GumroadSale) : String :=
  (((sale.custom_fields.getD []).lookup "code").getD "")

/-- The function verify_gumroad_sub (src/app.py lines 56-67), with the HTTP
fetch-and-parse outcome injected: `Except.ok resp` stands for a parsed
JSON body, `Except.error e` for any raised exception. Returns true when
the sales list is non-empty and the extracted code of some sale equals the
supplied code; every other path falls through to false. The function
reads no account state and performs no writes. -/
def verify_gumroad_sub (fetched : Except String GumroadResponse)
    (code : String) : Bool :=
  match fetched with
  | Except.ok resp =>
      let sales := resp.sales.getD []
      if (!sales.isEmpty) && sales.any (fun sale => saleCode sale == code) then
        true
      else
        false
  | Except.error _ => false

/-! ## Helper lemmas -/

/-- A two-branch Bool-valued if collapses to its condition. -/
lemma if_bool_id (b : Bool) : (if b then true else false) = b := by
  cases b <;> rfl

/-- Evaluating verify_gumroad_sub on a parsed response equals the combined
non-empty-and-match condition. -/
lemma verify_gumroad_sub_ok (resp : GumroadResponse) (code : String) :
    verify_gumroad_sub (Except.ok resp) code =
      ((!(resp.sales.getD []).isEmpty) &&
        (resp.sales.getD []).any (fun sale => saleCode sale == code)) := by
  simp only [verify_gumroad_sub, if_bool_id]

/-- The score list sums to the number of POSITIVE labels. -/
lemma sentimentScores_sum (l : List SentimentResult) :
    (sentimentScores l).sum = (countPositive l : ℚ) := by
  induction l with
  | nil => simp [sentimentScores, countPositive]
  | cons s t ih =>
      by_cases hs : s.label = "POSITIVE" <;>
        simp [sentimentScores, countPositive, List.filter_cons, hs] at ih ⊢ <;>
        linarith

/-- On non-empty input the summary fields are the averaged scores, the
threshold label of that average, and the truncated sentiment list. -/
lemma get_sentiment_summary_cons (classifier : String → SentimentResult)
    (r : String) (rs : List String) :
    get_sentiment_summary classifier (r :: rs) =
      { overall := overallLabel ((sentimentScores ((r :: rs).map classifier)).sum /
          ((sentimentScores ((r :: rs).map classifier)).length : ℚ)),
        avg_score := (sentimentScores ((r :: rs).map classifier)).sum /
          ((sentimentScores ((r :: rs).map classifier)).length : ℚ),
        details := ((r :: rs).map classifier).take 5 } := rfl

/-- Above the 0.6 threshold the label is POSITIVE. -/
lemma overallLabel_pos {a : ℚ} (h1 : a > 0.6) : overallLabel a = "POSITIVE" := by
  rw [overallLabel, if_pos h1]

/-- Below the 0.4 threshold the label is NEGATIVE. -/
lemma overallLabel_neg {a : ℚ} (h1 : a < 0.4) : overallLabel a = "NEGATIVE" := by
  rw [overallLabel, if_neg (by norm_num; linarith), if_pos h1]

/-- Inside the closed interval the label is NEUTRAL. -/
lemma overallLabel_neutral {a : ℚ} (h1 : 0.4 ≤ a) (h2 : a ≤ 0.6) :
    overallLabel a = "NEUTRAL" := by
  rw [overallLabel, if_neg (by linarith), if_neg (by linarith)]

/-! ## Claim theorems -/

/-- C1: for a non-premium account the gate permits a search attempt
exactly when searches_used < 2 and increments searches_used by 1 on each
permitted search; starting from Trial(0) the first two attempts succeed
(reaching counters 1 then 2) and the third attempt is denied with the
state remaining at searches_used = 2. -/
theorem trial_gate_two_searches (n : Nat) :
    ((searchStep ⟨n, false⟩).1 = true ↔ n < 2)
    ∧ (n < 2 → searchStep ⟨n, false⟩ = (true, ⟨n + 1, false⟩))
    ∧ searchStep ⟨0, false⟩ = (true, ⟨1, false⟩)
    ∧ searchStep ⟨1, false⟩ = (true, ⟨2, false⟩)
    ∧ searchStep ⟨2, false⟩ = (false, ⟨2, false⟩) := by
  refine ⟨?_, fun h => ?_, by decide, by decide, by decide⟩
  · by_cases h : n < 2 <;> simp [searchStep, allowSearch, h]
  · simp [searchStep, allowSearch, h]

/-- Witness for C1: the theorem applied at n = 0 with the n < 2 premise
discharged. -/
theorem trial_gate_two_searches_witness :
    searchStep ⟨0, false⟩ = (true, ⟨1, false⟩) :=
  (trial_gate_two_searches 0).2.1 (by decide)

/-- C4 counterexample: a premium account at searches_used = 0 has its
counter changed by a successful search (it becomes 1), refuting the
claim that a premium search leaves the counter unchanged. -/
theorem premium_search_changes_counter :
    (searchStep ⟨0, true⟩).1 = true
    ∧ (searchStep ⟨0, true⟩).2.searches_used ≠ 0 := by decide

/-- C4 amended: for a premium account a search is always permitted, and
the code increments searches_used by 1 on every successful search,
premium included; the counter value never affects premium permission. -/
theorem premium_search_increments (stats : UserStats)
    (h : stats.is_premium = true) :
    searchStep stats =
      (true, { stats with searches_used := stats.searches_used + 1 }) := by
  simp [searchStep, allowSearch, h]

/-- Witness for the amended C4: a premium account at counter 5 searches
successfully and moves to counter 6. -/
theorem premium_search_increments_witness :
    searchStep ⟨5, true⟩ = (true, ⟨6, true⟩) :=
  premium_search_increments ⟨5, true⟩ rfl

/-- C2: for every non-empty review list, the overall label is POSITIVE
when the average score exceeds 0.6, NEGATIVE when it is below 0.4, and
NEUTRAL on the whole closed interval from 0.4 to 0.6, both endpoints
included. -/
theorem overall_label_thresholds (classifier : String → SentimentResult)
    (reviews : List String) (h : reviews ≠ []) :
    ((get_sentiment_summary classifier reviews).avg_score > 0.6 →
      (get_sentiment_summary classifier reviews).overall = "POSITIVE")
    ∧ ((get_sentiment_summary classifier reviews).avg_score < 0.4 →
      (get_sentiment_summary classifier reviews).overall = "NEGATIVE")
    ∧ (0.4 ≤ (get_sentiment_summary classifier reviews).avg_score →
      (get_sentiment_summary classifier reviews).avg_score ≤ 0.6 →
      (get_sentiment_summary classifier reviews).overall = "NEUTRAL") := by
  obtain ⟨r, rs, rfl⟩ := List.exists_cons_of_ne_nil h
  have hov : (get_sentiment_summary classifier (r :: rs)).overall =
      overallLabel ((get_sentiment_summary classifier (r :: rs)).avg_score) := rfl
  refine ⟨fun h1 => ?_, fun h1 => ?_, fun h1 h2 => ?_⟩ <;> rw [hov]
  · exact overallLabel_pos h1
  · exact overallLabel_neg h1
  · exact overallLabel_neutral h1 h2

/-- Witness for C2: a single review classified POSITIVE gives average 1,
which exceeds 0.6, so the overall label is POSITIVE. -/
theorem overall_label_thresholds_witness :
    (get_sentiment_summary (fun _ => ⟨"POSITIVE", 1⟩) ["good"]).overall
      = "POSITIVE" :=
  (overall_label_thresholds (fun _ => ⟨"POSITIVE", 1⟩) ["good"]
    (by decide)).1 (by norm_num [get_sentiment_summary_cons, sentimentScores])

/-- C3: the empty review list yields exactly the summary with overall
NO_DATA, average score 0, and empty details, for every classifier — the
result does not depend on the classifier, so no classifier call is
observable. -/
theorem empty_reviews_no_data (classifier : String → SentimentResult) :
    get_sentiment_summary classifier [] =
      { overall := "NO_DATA", avg_score := 0, details := [] } := rfl

/-- C6: for every non-empty review list the average score equals the
number of POSITIVE-classified reviews divided by the total number of
reviews, and lies between 0 and 1 inclusive. -/
theorem avg_score_positive_fraction (classifier : String → SentimentResult)
    (reviews : List String) (h : reviews ≠ []) :
    (get_sentiment_summary classifier reviews).avg_score =
      (countPositive (reviews.map classifier) : ℚ) / (reviews.length : ℚ)
    ∧ 0 ≤ (get_sentiment_summary classifier reviews).avg_score
    ∧ (get_sentiment_summary classifier reviews).avg_score ≤ 1 := by
  obtain ⟨r, rs, rfl⟩ := List.exists_cons_of_ne_nil h
  rw [get_sentiment_summary_cons]
  have hlen : (sentimentScores ((r :: rs).map classifier)).length =
      (r :: rs).length := by
    simp [sentimentScores]
  have havg : (sentimentScores ((r :: rs).map classifier)).sum /
      ((sentimentScores ((r :: rs).map classifier)).length : ℚ) =
      (countPositive ((r :: rs).map classifier) : ℚ) / ((r :: rs).length : ℚ) := by
    rw [sentimentScores_sum, hlen]
  have hn : (0 : ℚ) < ((r :: rs).length : ℚ) := by
    exact_mod_cast Nat.succ_pos rs.length
  have hc : (countPositive ((r :: rs).map classifier) : ℚ) ≤
      ((r :: rs).length : ℚ) := by
    have := List.length_filter_le
      (fun s => decide (s.label = "POSITIVE")) ((r :: rs).map classifier)
    have hml : ((r :: rs).map classifier).length = (r :: rs).length :=
      List.length_map _ _
    exact_mod_cast hml ▸ this
  refine ⟨havg, ?_, ?_⟩
  · rw [havg]
    positivity
  · rw [havg]
    rw [div_le_one hn]
    exact hc

/-- Witness for C6: two reviews, one classified POSITIVE and one
NEGATIVE, give average 1/2, which lies in the unit interval. -/
theorem avg_score_positive_fraction_witness :
    (get_sentiment_summary
      (fun t => if t = "a" then ⟨"POSITIVE", 1⟩ else ⟨"NEGATIVE", 1⟩)
      ["a", "b"]).avg_score =
      (countPositive (["a", "b"].map
        (fun t => if t = "a" then ⟨"POSITIVE", 1⟩ else ⟨"NEGATIVE", 1⟩)) : ℚ) /
        ((["a", "b"] : List String).length : ℚ) :=
  (avg_score_positive_fraction
    (fun t => if t = "a" then ⟨"POSITIVE", 1⟩ else ⟨"NEGATIVE", 1⟩)
    ["a", "b"] (by decide)).1

/-- C7: for every review list the details field is the first
min(5, n) classification results in order, so its length is min(5, n),
where n is the number of reviews. -/
theorem details_first_five (classifier : String → SentimentResult)
    (reviews : List String) :
    (get_sentiment_summary classifier reviews).details =
      (reviews.map classifier).take 5
    ∧ (get_sentiment_summary classifier reviews).details.length =
      min 5 reviews.length := by
  cases reviews with
  | nil => exact ⟨rfl, rfl⟩
  | cons r rs =>
      rw [get_sentiment_summary_cons]
      refine ⟨rfl, ?_⟩
      simp [List.length_take]
      omega

/-- C8: for every product name (and every Reddit fetch outcome) the
fetcher returns source A results followed by source B results, and
source B contributes exactly the two deterministic synthetic snippets,
each built around the product name. -/
theorem fetch_source_a_first (fetched : Except String (List RedditPost))
    (product : String) :
    (fetch_reviews fetched product).1 =
      (scrape_reddit_reviews fetched).1 ++ scrape_google_reviews product
    ∧ scrape_google_reviews product =
      ["Deep insight: " ++ product ++ " excels in usability (4.8/5 from Google).",
       "Trend: Recent updates boost " ++ product ++ " quality."]
    ∧ (scrape_google_reviews product).length = 2 :=
  ⟨rfl, rfl, rfl⟩

/-- C9: on any Reddit fetch failure the source A call returns the empty
snippet list together with a single non-fatal warning, and the overall
fetch continues with exactly the source B results; no exception
propagates (the embedded fetcher is total). -/
theorem reddit_failure_degrades (e : String) (product : String) :
    scrape_reddit_reviews (Except.error e) = ([], ["Fetch failed: " ++ e])
    ∧ fetch_reviews (Except.error e) product =
      (scrape_google_reviews product, ["Fetch failed: " ++ e]) := by
  refine ⟨rfl, ?_⟩
  simp [fetch_reviews, scrape_reddit_reviews]

/-- C5: verification on a parsed provider response returns true exactly
when the extracted code field of some returned (alive-filtered) sale equals
the supplied code, and returns false on any provider or network failure
(fails closed). The embedded `verify_gumroad_sub` takes no account state
and performs no writes, so account state is unchanged by the call. -/
theorem verify_sub_iff_match (resp : GumroadResponse) (code e : String) :
    (verify_gumroad_sub (Except.ok resp) code = true ↔
      ∃ sale ∈ resp.sales.getD [], saleCode sale = code)
    ∧ verify_gumroad_sub (Except.error e) code = false := by
  refine ⟨?_, rfl⟩
  rw [verify_gumroad_sub_ok]
  constructor
  · intro hv
    rw [Bool.and_eq_true, List.any_eq_true] at hv
    obtain ⟨-, sale, hmem, hcode⟩ := hv
    exact ⟨sale, hmem, beq_iff_eq.mp hcode⟩
  · rintro ⟨sale, hmem, hcode⟩
    rw [Bool.and_eq_true, List.any_eq_true]
    refine ⟨?_, sale, hmem, beq_iff_eq.mpr hcode⟩
    have hne : resp.sales.getD [] ≠ [] := List.ne_nil_of_mem hmem
    simp [List.isEmpty_iff, hne]

/-- C10: when the parsed response contains a sale whose custom fields
carry no code entry, the extracted code defaults to the empty string, so
verification with the empty string as the supplied code returns true. -/
theorem empty_code_matches_missing_field (resp : GumroadResponse)
    (sale : GumroadSale) (hmem : sale ∈ resp.sales.getD [])
    (hnone : (sale.custom_fields.getD []).lookup "code" = none) :
    verify_gumroad_sub (Except.ok resp) "" = true := by
  rw [verify_gumroad_sub_ok]
  rw [Bool.and_eq_true, List.any_eq_true]
  refine ⟨?_, sale, hmem, ?_⟩
  · have hne : resp.sales.getD [] ≠ [] := List.ne_nil_of_mem hmem
    simp [List.isEmpty_iff, hne]
  · simp [saleCode, hnone]

/-- Witness for C10: a response with one sale whose custom-fields
dictionary is absent verifies the empty code. -/
theorem empty_code_matches_missing_field_witness :
    verify_gumroad_sub (Except.ok ⟨some [⟨none⟩]⟩) "" = true :=
  empty_code_matches_missing_field ⟨some [⟨none⟩]⟩ ⟨none⟩
    (by decide) (by decide)

end ClueAI
